import Mathlib

set_option autoImplicit false

/- Verification of the action-execution subsystem of a browser-automation
extension: waiting executor, coordinate engine, scroll engine, click
executor, setValue typing script, page-stability monitor, action state
manager, element identity assignment, and the callDOMAction gateway.
Each section embeds one source function as an executable Lean definition;
the asynchronous environment (page script results, timers, randomness)
is passed in explicitly as data. -/

/- ===================== Definitions ===================== -/

/- ---- Waiting executor (actions/waiting.ts, function waiting) ---- -/

namespace Waiting

/-- Maximum wait in seconds, from the source constant maxWaitSeconds = 300. -/
def maxWaitSeconds : ℚ := 300

/-- Embedding of the waiting executor. The input is the numeric seconds
argument; the result is the number of seconds the promise waits before
resolving, or the raised error message. Negative input raises; otherwise
the duration is capped at maxWaitSeconds. -/
def waiting (seconds : ℚ) : Except String ℚ :=
  if seconds < 0 then
    Except.error ("Invalid wait duration: " ++ toString seconds ++ ". Must be a non-negative number.")
  else
    Except.ok (min seconds maxWaitSeconds)

end Waiting

/- ---- Coordinate engine (core/coordinates.ts, getCenterCoordinates) ---- -/

namespace Coordinates

/-- JavaScript number: either NaN or a rational value (floats are embedded
as rationals; overflow and rounding play no role in the checked claims). -/
inductive JSNum where
  | nan
  | num (q : ℚ)
deriving DecidableEq

/-- Embedding of the isNaN check. -/
def jsIsNaN : JSNum → Bool
  | .nan => true
  | .num _ => false

/-- JavaScript comparison a < b: false whenever an operand is NaN. -/
def jsLt : JSNum → JSNum → Bool
  | .num a, .num b => decide (a < b)
  | _, _ => false

/-- ElementCoordinates record from types.ts. -/
structure ElementCoordinates where
  x : ℚ
  y : ℚ
deriving DecidableEq

/-- CONFIG.COORDINATES.MAX_RETRIES. -/
def MAX_RETRIES : Nat := 3

/-- CONFIG.COORDINATES.MAX_COORDINATE_VALUE. -/
def MAX_COORDINATE_VALUE : ℚ := 10000

/-- What one attempt of the getCenterCoordinates loop observes from the
page. lookupError covers getElementByNodeId or executeScript throwing;
scriptError covers the script returning an error record (element not
found, element has no dimensions); scriptNull covers a null result;
coords carries the computed center plus the in-viewport flag. -/
inductive CoordAttempt where
  | lookupError
  | scriptError
  | scriptNull
  | coords (x y : JSNum) (isVisible : Bool)

/-- One pass of the retry loop of getCenterCoordinates. The first argument
is the stream of attempt observations, the second the current attempt
index, the third the remaining iterations (MAX_RETRIES minus index). The
result carries the outcome together with the number of attempts consumed.
Mirrors the source: error outcomes retry and only throw on the final
attempt; a result that is out of the viewport triggers a scroll and a
retry with no throw of its own (the loop then falls through to the final
throw); valid coordinates are range-checked before being returned. -/
def coordGo (stream : Nat → CoordAttempt) : Nat → Nat → Except String ElementCoordinates × Nat
  | i, 0 => (Except.error "Failed to get element coordinates after multiple attempts", i)
  | i, fuel + 1 =>
    match stream i with
    | .lookupError =>
      if fuel = 0 then (Except.error "Failed to get coordinates: lookup threw", i + 1)
      else coordGo stream (i + 1) fuel
    | .scriptError =>
      if fuel = 0 then (Except.error "Failed to get coordinates: script reported an error", i + 1)
      else coordGo stream (i + 1) fuel
    | .scriptNull =>
      if fuel = 0 then (Except.error "Failed to get coordinates: script execution returned null", i + 1)
      else coordGo stream (i + 1) fuel
    | .coords x y isVisible =>
      if isVisible then
        match x, y with
        | .num a, .num b =>
          if a < 0 ∨ b < 0 ∨ MAX_COORDINATE_VALUE < a ∨ MAX_COORDINATE_VALUE < b then
            if fuel = 0 then (Except.error "Failed to get coordinates: computed invalid coordinates", i + 1)
            else coordGo stream (i + 1) fuel
          else
            (Except.ok ⟨a, b⟩, i + 1)
        | _, _ =>
          if fuel = 0 then (Except.error "Failed to get coordinates: computed invalid coordinates", i + 1)
          else coordGo stream (i + 1) fuel
      else
        coordGo stream (i + 1) fuel

/-- Embedding of getCenterCoordinates: run the retry loop from attempt 0
with MAX_RETRIES iterations of fuel. -/
def getCenterCoordinates (stream : Nat → CoordAttempt) : Except String ElementCoordinates × Nat :=
  coordGo stream 0 MAX_RETRIES

end Coordinates

/- ---- SetValue executor (actions/setValue.ts) ---- -/

namespace SetValue

/-- typingDuration from executeSetValueWithCompletion: 50ms per
character. -/
def typingDurationMs (value : String) : Nat := value.length * 50

/-- totalDuration from executeSetValueWithCompletion: typing duration
plus the fixed 100ms buffer for the final events. -/
def totalDurationMs (value : String) : Nat := typingDurationMs value + 100

/-- Delay between the start of the typing script and the resolution of
the setValue promise on the non-failing path: the completion timer is
armed for totalDuration when the script result arrives, which the
embedding treats as instantaneous relative to the typing animation. -/
def setValueResolveDelayMs (value : String) : Nat := totalDurationMs value

/-- Element classification used by the newline branch of
enhancedSetValueScript (the checks run in this order in the source). -/
inductive ElemKind where
  | textarea
  | contentEditable
  | input
  | other

/-- How far the form-submission attempt for Enter on a plain input got. -/
inductive SubmitAttempt where
  | noAttempt
  | dispatchCanceled
  | submitCalled
  | buttonClicked
  | submitThrewNoButton
deriving DecidableEq

/-- The target element as seen by the injected typing script when it
processes one newline character. -/
structure TextTarget where
  kind : ElemKind
  value : String
  selectionStart : Option Nat
  hasForm : Bool
  submitCanceled : Bool
  submitCallThrows : Bool
  hasSubmitButton : Bool

/-- Outcome of processing one newline character. -/
structure EnterResult where
  value : String
  caret : Option Nat
  lineBreakInserted : Bool
  submit : SubmitAttempt
deriving DecidableEq

/-- JavaScript expression selectionStart || value.length: null and the
number 0 are both falsy, so a caret at position 0 falls back to the
length. -/
def jsOrLen : Option Nat → Nat → Nat
  | some p, d => if p = 0 then d else p
  | none, d => d

/-- substring(0, pos) + newline + substring(pos). -/
def insertNewlineAt (v : String) (p : Nat) : String :=
  v.take p ++ "\n" ++ v.drop p

/-- The try/catch around form submission: dispatch the submit event; if
it was not canceled call form.submit(); if that throws click the submit
button when present. -/
def formSubmitAttempt (t : TextTarget) : SubmitAttempt :=
  if t.hasForm then
    if t.submitCanceled then SubmitAttempt.dispatchCanceled
    else if t.submitCallThrows then
      (if t.hasSubmitButton then SubmitAttempt.buttonClicked else SubmitAttempt.submitThrewNoButton)
    else SubmitAttempt.submitCalled
  else SubmitAttempt.noAttempt

/-- Embedding of the newline branch of enhancedSetValueScript: a textarea
gets the newline spliced into its value (caret position computed with the
falsy-zero JavaScript or), a contenteditable gets a line break inserted,
a plain input whose keydown was not prevented attempts form submission;
nothing else mutates the value. -/
def handleEnterChar (t : TextTarget) (prevented : Bool) : EnterResult :=
  match t.kind with
  | ElemKind.textarea =>
    let pos := jsOrLen t.selectionStart t.value.length
    { value := insertNewlineAt t.value pos
      caret := some (pos + 1)
      lineBreakInserted := true
      submit := SubmitAttempt.noAttempt }
  | ElemKind.contentEditable =>
    { value := t.value, caret := t.selectionStart, lineBreakInserted := true
      submit := SubmitAttempt.noAttempt }
  | ElemKind.input =>
    if prevented then
      { value := t.value, caret := t.selectionStart, lineBreakInserted := false
        submit := SubmitAttempt.noAttempt }
    else
      { value := t.value, caret := t.selectionStart, lineBreakInserted := false
        submit := formSubmitAttempt t }
  | ElemKind.other =>
    { value := t.value, caret := t.selectionStart, lineBreakInserted := false
      submit := SubmitAttempt.noAttempt }

/-- Whether any step of a form submission was attempted. -/
def submitAttempted (r : EnterResult) : Bool :=
  decide (r.submit ≠ SubmitAttempt.noAttempt)

/-- Textarea with the caret at position 0 and a surrounding form. -/
def caretZeroTextarea : TextTarget :=
  ⟨ElemKind.textarea, "ab", some 0, true, false, false, true⟩

/-- Textarea with the caret strictly inside the value. -/
def witnessTextarea : TextTarget :=
  ⟨ElemKind.textarea, "ab", some 1, false, false, false, false⟩

/-- Plain input inside a form whose submit event is not canceled. -/
def witnessInput : TextTarget :=
  ⟨ElemKind.input, "q", some 1, true, false, false, true⟩

end SetValue

/- ---- Element identity (getAnnotatedDOM.ts, getUniqueElementSelectorId) ---- -/

namespace Annotate

/-- Embedding of getUniqueElementSelectorId for one element. The first
argument is the current identity-attribute state of the element
(getAttribute result, none for null); the second is the token the random
generator would produce on this call. Returns the id handed back to the
caller together with the new attribute state. The source checks the
attribute with JavaScript truthiness, so an empty stored string is
treated as absent. -/
def getUniqueElementSelectorId (attr : Option String) (fresh : String) : String × Option String :=
  match attr with
  | some s => if s = "" then (fresh, some fresh) else (s, some s)
  | none => (fresh, some fresh)

end Annotate

/- ---- Action state manager (actionStateManager.ts) ---- -/

namespace ActionState

/-- Status field of an ActionState record. -/
inductive ActionStatus where
  | pending
  | inProgress
  | completed
  | failed
deriving DecidableEq

/-- The manager: the actionStates map (modelled as a function from action
id to status; the type/timing/error fields of ActionState play no role in
the checked claims) together with the activeAction field. -/
structure Manager where
  states : String → Option ActionStatus
  activeAction : Option String

/-- Fresh manager: empty map, no active action. -/
def emptyManager : Manager := ⟨fun _ => none, none⟩

/-- Map.set on the actionStates map. -/
def setState (m : Manager) (id : String) (st : ActionStatus) : Manager :=
  { m with states := fun k => if k = id then some st else m.states k }

/-- startAction: stores a pending state and makes id the active action. -/
def startAction (m : Manager) (id : String) : Manager :=
  { setState m id ActionStatus.pending with activeAction := some id }

/-- setActionInProgress: updates the status only when the state exists. -/
def setActionInProgress (m : Manager) (id : String) : Manager :=
  match m.states id with
  | none => m
  | some _ => setState m id ActionStatus.inProgress

/-- completeAction: when the state exists, marks it completed and clears
activeAction only if this id was the active one. -/
def completeAction (m : Manager) (id : String) : Manager :=
  match m.states id with
  | none => m
  | some _ =>
    { setState m id ActionStatus.completed with
      activeAction := if m.activeAction = some id then none else m.activeAction }

/-- failAction: when the state exists, marks it failed and clears
activeAction only if this id was the active one. -/
def failAction (m : Manager) (id : String) : Manager :=
  match m.states id with
  | none => m
  | some _ =>
    { setState m id ActionStatus.failed with
      activeAction := if m.activeAction = some id then none else m.activeAction }

/-- hasActiveAction from the source. -/
def hasActiveAction (m : Manager) : Bool := m.activeAction.isSome

/-- The first poll of the waitForAllActions loop: the promise resolves
immediately exactly when hasActiveAction is false. -/
def waitForAllActionsImmediate (m : Manager) : Bool := !(hasActiveAction m)

/-- One call into the manager. -/
inductive ActionEvent where
  | start (id : String)
  | setInProgress (id : String)
  | complete (id : String)
  | fail (id : String)

/-- Apply one call to the manager state. -/
def applyEvent (m : Manager) : ActionEvent → Manager
  | .start id => startAction m id
  | .setInProgress id => setActionInProgress m id
  | .complete id => completeAction m id
  | .fail id => failAction m id

/-- Run a whole call sequence from the fresh manager. -/
def runEvents (es : List ActionEvent) : Manager :=
  es.foldl applyEvent emptyManager

/-- Modelled from the spec: the window semantics of the claim. The open
window after a call sequence: a start opens the window for its id, a
complete or fail for the currently open id closes it. -/
def specOpen : Option String → List ActionEvent → Option String
  | o, [] => o
  | _, .start id :: es => specOpen (some id) es
  | o, .setInProgress _ :: es => specOpen o es
  | o, .complete id :: es => specOpen (if o = some id then none else o) es
  | o, .fail id :: es => specOpen (if o = some id then none else o) es

/-- Non-overlapping (single-flight) call sequences: a start only when no
window is open, progress/completion/failure only for the open window. -/
def wellFormed : Option String → List ActionEvent → Bool
  | _, [] => true
  | o, .start id :: es =>
    match o with
    | none => wellFormed (some id) es
    | some _ => false
  | o, .setInProgress id :: es => if o = some id then wellFormed o es else false
  | o, .complete id :: es => if o = some id then wellFormed none es else false
  | o, .fail id :: es => if o = some id then wellFormed none es else false

end ActionState

/- ---- Action gateway (ScriptingMode.ts, callDOMAction) ---- -/

namespace Gateway

open ActionState

/-- ActionResult record returned by callDOMAction. -/
structure ActionResult where
  success : Bool
  actionId : String
  duration : Nat
  error : Option String
deriving DecidableEq

/-- JavaScript String.includes. -/
def includesStr (s sub : String) : Bool := decide (sub.data <:+: s.data)

/-- The consolidated error string built in the catch branch of
callDOMAction. The domain, payload and browser sentences are rendered by
the environment (URL parsing and user-agent sniffing are not modelled);
the dedup branch on the underlying error is modelled exactly. -/
def mkErrorMessage (ty : String) (duration : Nat) (tabId : Nat)
    (domainPart payloadPart browserPart : String) (originalError : String) : String :=
  let base := "DOM Action failed: " ++ ty.toUpper ++ " operation unsuccessful. "
    ++ "Duration: " ++ toString duration ++ "ms. "
    ++ (if tabId = 0 then "" else "Tab ID: " ++ toString tabId ++ ". ")
    ++ domainPart ++ payloadPart ++ browserPart
  if includesStr originalError "operation failed for element"
      || includesStr originalError "Navigation operation failed" then
    base ++ "Details: " ++ originalError
  else
    base ++ "Underlying error: " ++ originalError

/-- Environment of one callDOMAction invocation: the awaited executor
outcome (an error also covers the unknown-action-type throw, which the
same catch handles), the measured duration, and the captured context. -/
structure GatewayEnv where
  exec : Except String Unit
  duration : Nat
  tabId : Nat
  domainPart : String
  payloadPart : String
  browserPart : String

/-- Embedding of callDOMAction: start tracking, mark in progress, run the
executor; on success mark completed and return a success result, on any
error mark failed and return a failure result carrying the constructed
message. The function is total: no path throws. -/
def callDOMAction (m : Manager) (actionId ty : String) (env : GatewayEnv) :
    ActionResult × Manager :=
  let m1 := startAction m actionId
  let m2 := setActionInProgress m1 actionId
  match env.exec with
  | Except.ok _ =>
    (⟨true, actionId, env.duration, none⟩, completeAction m2 actionId)
  | Except.error e =>
    let msg := mkErrorMessage ty env.duration env.tabId
      env.domainPart env.payloadPart env.browserPart e
    (⟨false, actionId, env.duration, some msg⟩, failAction m2 actionId)

end Gateway

/- ---- Stability monitor (core/stability.ts) ---- -/

namespace Stability

/-- CONFIG.PAGE_STABILITY.TIMEOUT. -/
def TIMEOUT : Nat := 2000

/-- CONFIG.PAGE_STABILITY.POLL_INTERVAL. -/
def POLL_INTERVAL : Nat := 25

/-- CONFIG.PAGE_STABILITY.CONSISTENT_CHECKS_REQUIRED. -/
def CONSISTENT_CHECKS_REQUIRED : Nat := 2

/-- CONFIG.PAGE_STABILITY.MIN_STABLE_TIME. -/
def MIN_STABLE_TIME : Nat := 100

/-- One poll of the injected stability script: either the script throws
(or returns no snapshot, which the source converts into a throw), or it
reports whether the page is stable. -/
inductive Poll where
  | error
  | result (isStable : Bool)

/-- Mutable loop state of checkPageLoadingAndStability: the consecutive
stable-check counter, the isStable flag of the previous result (none
before any result arrived), and the time of the start of the current
stable streak. -/
structure StabState where
  consistent : Nat
  lastWasStable : Option Bool
  lastStableTime : Nat

/-- Why the wait resolved. The promise in the source has no reject path:
every branch either calls resolve or schedules another poll, so the
embedding has no error outcome. -/
inductive StabReason where
  | achieved
  | timedOut
deriving DecidableEq

/-- Result of one poll step. -/
inductive StepRes where
  | resolved (r : StabReason)
  | next (s : StabState)

/-- One iteration of checkStability at time t (milliseconds since the
wait started). A script error is caught and merely reschedules: the
timeout test is skipped on that path, exactly as in the source. On a
result the consecutive-stable bookkeeping runs first, the
stability-achieved resolution is tested, then the timeout. -/
def stabPoll (t : Nat) (s : StabState) : Poll → StepRes
  | Poll.error => StepRes.next s
  | Poll.result isStable =>
    if isStable then
      let consistent := if s.lastWasStable = some true then s.consistent + 1 else 1
      let streakStart := if s.lastWasStable = some true then s.lastStableTime else t
      if CONSISTENT_CHECKS_REQUIRED ≤ consistent ∧ MIN_STABLE_TIME ≤ t - streakStart then
        StepRes.resolved StabReason.achieved
      else if TIMEOUT < t then StepRes.resolved StabReason.timedOut
      else StepRes.next ⟨consistent, some true, streakStart⟩
    else
      if TIMEOUT < t then StepRes.resolved StabReason.timedOut
      else StepRes.next ⟨0, some false, s.lastStableTime⟩

/-- Run the polling loop: poll n happens at time POLL_INTERVAL * n (the
first poll runs immediately, each reschedule waits POLL_INTERVAL; script
round trips are treated as instantaneous). none means the wait has not
resolved within the given number of polls. -/
def stabRun (stream : Nat → Poll) : Nat → StabState → Nat → Option StabReason
  | _, _, 0 => none
  | n, s, fuel + 1 =>
    match stabPoll (POLL_INTERVAL * n) s (stream n) with
    | StepRes.resolved r => some r
    | StepRes.next s' => stabRun stream (n + 1) s' fuel

/-- Initial loop state. -/
def initState : StabState := ⟨0, none, 0⟩

/-- Embedding of checkPageLoadingAndStability as a function of the poll
outcome stream, observed for a given number of polls. -/
def checkPageLoadingAndStability (stream : Nat → Poll) (fuel : Nat) : Option StabReason :=
  stabRun stream 0 initState fuel

end Stability

/- ---- Scroll engine (actions/scroll.ts, scrollIntoView) ---- -/

namespace Scroll

/-- Bounding client rect; right and bottom are derived as in DOMRect. -/
structure Rect where
  left : ℚ
  top : ℚ
  width : ℚ
  height : ℚ
deriving DecidableEq

/-- DOMRect.right. -/
def Rect.r (r : Rect) : ℚ := r.left + r.width

/-- DOMRect.bottom. -/
def Rect.b (r : Rect) : ℚ := r.top + r.height

/-- CONFIG.SCROLL.VIEWPORT_TOLERANCE. -/
def VIEWPORT_TOLERANCE : ℚ := 10

/-- CONFIG.SCROLL.MAX_RETRIES. -/
def MAX_RETRIES : Nat := 3

/-- What the in-page scroll script of one attempt observes: whether the
element was found, its rect before scrolling, the viewport, whether any
scroll method ran without throwing, and the rect at verification time. -/
structure ScrollPage where
  found : Bool
  initRect : Rect
  vw : ℚ
  vh : ℚ
  scrollAttempted : Bool
  newRect : Rect
deriving DecidableEq

/-- Reason strings of the scroll script, as an enumeration. -/
inductive ScrollReason where
  | notFound
  | noDims
  | alreadyVisible
  | noMethod
  | fullyVisible
  | acceptablyVisible
  | progressOnly
  | stillNotVisible
deriving DecidableEq

/-- Result record of the in-page scroll script (the fields the outer
loop reads; absent fields of the early returns are falsy in the source
and are false here). -/
structure ScrollScriptRes where
  success : Bool
  madeProgress : Bool
  isPartiallyVisible : Bool
  reason : ScrollReason
deriving DecidableEq

/-- The initial lenient visibility test (tolerance doubled). -/
def isAlreadyVisible (p : ScrollPage) : Bool :=
  decide (-(VIEWPORT_TOLERANCE * 2) ≤ p.initRect.top ∧
    -(VIEWPORT_TOLERANCE * 2) ≤ p.initRect.left ∧
    p.initRect.b ≤ p.vh + VIEWPORT_TOLERANCE * 2 ∧
    p.initRect.r ≤ p.vw + VIEWPORT_TOLERANCE * 2)

/-- The verification step after scrolling: expanded tolerance (tripled),
full visibility, partial visibility, positional progress beyond 5
pixels, acceptable visibility (center near the viewport, at least 10
percent of the area visible, or any progress), success when fully or
acceptably visible. -/
def verifyScroll (p : ScrollPage) : ScrollScriptRes :=
  let tol : ℚ := VIEWPORT_TOLERANCE * 3
  let nr := p.newRect
  let fully := decide (-tol ≤ nr.top ∧ -tol ≤ nr.left ∧ nr.b ≤ p.vh + tol ∧ nr.r ≤ p.vw + tol)
  let partially := decide (nr.top < p.vh + tol ∧ -tol < nr.b ∧ nr.left < p.vw + tol ∧ -tol < nr.r)
  let progress := decide (5 < |nr.top - p.initRect.top| ∨ 5 < |nr.left - p.initRect.left|)
  let centerNear := decide (-tol ≤ nr.left + nr.width / 2 ∧ nr.left + nr.width / 2 ≤ p.vw + tol ∧
    -tol ≤ nr.top + nr.height / 2 ∧ nr.top + nr.height / 2 ≤ p.vh + tol)
  let areaVisible := decide (nr.width * nr.height * (1 / 10) ≤
    max 0 (min nr.r p.vw - max nr.left 0) * max 0 (min nr.b p.vh - max nr.top 0))
  let acceptable := partially && (centerNear || areaVisible || progress)
  { success := fully || acceptable
    madeProgress := progress
    isPartiallyVisible := partially
    reason :=
      if fully then ScrollReason.fullyVisible
      else if acceptable then ScrollReason.acceptablyVisible
      else if progress then ScrollReason.progressOnly
      else ScrollReason.stillNotVisible }

/-- Embedding of the whole in-page scroll script of one attempt. -/
def scrollScript (p : ScrollPage) : ScrollScriptRes :=
  if ¬p.found then ⟨false, false, false, ScrollReason.notFound⟩
  else if p.initRect.width ≤ 0 ∨ p.initRect.height ≤ 0 then
    ⟨false, false, false, ScrollReason.noDims⟩
  else if isAlreadyVisible p then ⟨true, false, true, ScrollReason.alreadyVisible⟩
  else if ¬p.scrollAttempted then ⟨false, false, false, ScrollReason.noMethod⟩
  else verifyScroll p

/-- Environment of one scrollIntoView call: per attempt either the page
view the script ran on, or none when the lookup or the script execution
threw; plus what the last-resort script would observe. -/
structure ScrollEnv where
  attempt : Nat → Option ScrollPage
  lastResortThrows : Bool
  lastResortFound : Bool
  lastResortRect : Rect
  lrVw : ℚ
  lrVh : ℚ

/-- The last-resort script: force a scroll, then report whether the rect
lies within the viewport expanded by 100 pixels. It performs no
dimension check. The whole last resort counts as failed when it throws
or the element is missing. -/
def lastResortSucceeds (env : ScrollEnv) : Bool :=
  !env.lastResortThrows && env.lastResortFound &&
  decide (env.lastResortRect.top < env.lrVh + 100 ∧ -100 < env.lastResortRect.b ∧
    env.lastResortRect.left < env.lrVw + 100 ∧ -100 < env.lastResortRect.r)

/-- Outcome of scrollIntoView as consumed by callers. -/
structure ScrollOutcome where
  success : Bool
  partialSuccess : Bool
deriving DecidableEq

/-- bestResult update of the outer loop. -/
def bestUpdate (best : Option ScrollScriptRes) (r : ScrollScriptRes) : Option ScrollScriptRes :=
  match best with
  | none => some r
  | some _ => if r.success || r.madeProgress then some r else best

/-- The return after all attempts: never a success; partial success when
any progress was made or the best result was at least partially visible
or made progress. -/
def finishScroll (best : Option ScrollScriptRes) (anyProg : Bool) : ScrollOutcome :=
  { success := false
    partialSuccess := anyProg ||
      (match best with
       | some bst => bst.isPartiallyVisible || bst.madeProgress
       | none => false) }

/-- The retry loop of scrollIntoView: on a script result, update the
best result and the progress flag and return success immediately when
the script succeeded; on a throw at the final attempt, run the last
resort, whose success is returned as a full success. -/
def scrollGo (env : ScrollEnv) : Nat → Option ScrollScriptRes → Bool → Nat → ScrollOutcome
  | _, best, anyProg, 0 => finishScroll best anyProg
  | i, best, anyProg, fuel + 1 =>
    match env.attempt i with
    | none =>
      if fuel = 0 then
        if lastResortSucceeds env then ⟨true, true⟩ else finishScroll best anyProg
      else scrollGo env (i + 1) best anyProg fuel
    | some p =>
      let r := scrollScript p
      if r.success then ⟨true, true⟩
      else scrollGo env (i + 1) (bestUpdate best r) (anyProg || r.madeProgress) fuel

/-- Embedding of scrollIntoView. -/
def scrollIntoView (env : ScrollEnv) : ScrollOutcome :=
  scrollGo env 0 none false MAX_RETRIES

/-- Zero-size rect at the origin. -/
def zeroRect : Rect := ⟨0, 0, 0, 0⟩

/-- Environment in which every attempt throws and the last resort finds
a zero-size element at the origin of a 1280 by 720 viewport. -/
def cexScrollEnv : ScrollEnv :=
  { attempt := fun _ => none
    lastResortThrows := false
    lastResortFound := true
    lastResortRect := zeroRect
    lrVw := 1280
    lrVh := 720 }

/-- Page view of an element that is found but has a zero-size rect. -/
def zeroDimsPage : ScrollPage :=
  { found := true
    initRect := ⟨50, 50, 0, 0⟩
    vw := 1280
    vh := 720
    scrollAttempted := true
    newRect := ⟨50, 50, 0, 0⟩ }

/-- Environment in which every attempt sees the zero-size element. -/
def zeroDimsEnv : ScrollEnv :=
  { attempt := fun _ => some zeroDimsPage
    lastResortThrows := false
    lastResortFound := true
    lastResortRect := ⟨50, 50, 0, 0⟩
    lrVw := 1280
    lrVh := 720 }

end Scroll

/- ---- Click executor (actions/click.ts, function click) ---- -/

namespace Click

open Coordinates (ElementCoordinates)

/-- COORDINATE_STABILITY_THRESHOLD from the click source. -/
def COORDINATE_STABILITY_THRESHOLD : ℚ := 2

/-- Environment of one click call: the target element identity, the
scrollIntoView outcome (error when it threw), the successive
getCenterCoordinates results of the stability loop, what the
visibility-check script observes (whether the target is still in the
DOM, which element elementFromPoint returns at the computed point, and
whether that element is the target or contains or is contained in it),
the re-scroll and post-re-scroll coordinate fetch of the not-visible
branch, the cursor move, the element found at the point by the primary
dispatch script, and the backup lookup and backup script outcomes. -/
structure ClickEnv where
  target : Nat
  scrollOutcome : Except Unit Scroll.ScrollOutcome
  coordFetch : Nat → Except Unit ElementCoordinates
  visTargetFound : Bool
  visAtPoint : Option Nat
  visRelated : Bool
  reScroll : Except Unit Scroll.ScrollOutcome
  reCoordFetch : Except Unit ElementCoordinates
  cursorMoved : Bool
  primaryAtPoint : Option Nat
  backupLookupOk : Bool
  backupScriptOk : Bool

/-- The coordinate stability loop: up to three getCenterCoordinates
calls; the first result is stored, later results are compared against
the stored one and accepted as stable within the threshold; a fetch
error breaks out of the loop when the scroll was partially successful
and otherwise just consumes the retry. The stored coordinates survive
the loop even without stability. -/
def coordLoop (env : ClickEnv) (sp : Bool) : Nat → Option ElementCoordinates → Nat → Option ElementCoordinates
  | _, cur, 0 => cur
  | i, cur, fuel + 1 =>
    match env.coordFetch i with
    | Except.error _ =>
      if sp then cur
      else coordLoop env sp (i + 1) cur fuel
    | Except.ok c =>
      match cur with
      | none => coordLoop env sp (i + 1) (some c) fuel
      | some old =>
        if |old.x - c.x| ≤ COORDINATE_STABILITY_THRESHOLD ∧
            |old.y - c.y| ≤ COORDINATE_STABILITY_THRESHOLD then some c
        else coordLoop env sp (i + 1) (some c) fuel

/-- The visibility-check script: the target must still be found, some
element must be at the computed point, and that element must be the
target or related to it by containment. -/
def visCheckVisible (env : ClickEnv) : Bool :=
  env.visTargetFound &&
  match env.visAtPoint with
  | none => false
  | some e => decide (e = env.target) || env.visRelated

/-- The scroll and coordinate phase of click: a scroll throw is caught
and routes to the backup method with no coordinates; otherwise the
stability loop runs, the visibility check may pass, be overridden by a
partial scroll success, or trigger a re-scroll whose coordinate refetch
failure (or whose own throw) routes to the backup method while keeping
the old coordinates. Returns the coordinates (if any) and the
useBackupMethod flag. -/
def clickPhase1 (env : ClickEnv) : Option ElementCoordinates × Bool :=
  match env.scrollOutcome with
  | Except.error _ => (none, true)
  | Except.ok sr =>
    match coordLoop env sr.partialSuccess 0 none 3 with
    | some c =>
      if visCheckVisible env then (some c, false)
      else if sr.partialSuccess then (some c, false)
      else
        match env.reScroll with
        | Except.error _ => (some c, true)
        | Except.ok _ =>
          match env.reCoordFetch with
          | Except.ok c2 => (some c2, false)
          | Except.error _ => (some c, true)
    | none =>
      if sr.partialSuccess then (none, true) else (none, false)

/-- Trace of one click call. -/
structure ClickRun where
  ok : Bool
  primaryAttempted : Bool
  backupAttempted : Bool
  usedPrimary : Bool
  usedBackup : Bool
deriving DecidableEq

/-- The backup path: the backupClickAttempted flag is set before the
element lookup, so it is true even when the lookup throws; the result
succeeds only when the lookup and the backup script both succeed. -/
def clickBackup (env : ClickEnv) (primaryAttempted : Bool) : ClickRun :=
  if !env.backupLookupOk then ⟨false, primaryAttempted, true, false, false⟩
  else if env.backupScriptOk then ⟨true, primaryAttempted, true, false, true⟩
  else ⟨false, primaryAttempted, true, false, false⟩

/-- Embedding of the click executor: with coordinates and no backup
flag, the primary dispatch runs: it succeeds exactly when
elementFromPoint at the computed point returns any element (the events
are then dispatched to that element, whichever it is) and only falls
back to the backup method when no element is at the point; without
usable coordinates or with the backup flag, the backup method runs
directly. -/
def click (env : ClickEnv) : ClickRun :=
  match clickPhase1 env with
  | (some _, false) =>
    match env.primaryAtPoint with
    | some _ => ⟨true, true, false, true, false⟩
    | none => clickBackup env true
  | (some _, true) => clickBackup env false
  | (none, _) => clickBackup env false

/-- Concrete environment for the claim scenario: scroll reported partial
success, coordinates were obtained on the first fetch (the second fetch
fails, which with a partially successful scroll breaks out of the
stability loop keeping the obtained coordinates, as in the source), and
elementFromPoint reports an unrelated element 2 instead of the target 1
both during the visibility check and during the primary dispatch. -/
def cexClickEnv : ClickEnv :=
  { target := 1
    scrollOutcome := Except.ok ⟨false, true⟩
    coordFetch := fun i => if i = 0 then Except.ok ⟨10, 10⟩ else Except.error ()
    visTargetFound := true
    visAtPoint := some 2
    visRelated := false
    reScroll := Except.ok ⟨false, true⟩
    reCoordFetch := Except.ok ⟨10, 10⟩
    cursorMoved := true
    primaryAtPoint := some 2
    backupLookupOk := true
    backupScriptOk := true }

end Click

/- ===================== Theorems ===================== -/

namespace Coordinates

/-- Helper: the retry loop either returns in-range coordinates within its
fuel budget or errors after consuming exactly all remaining attempts. -/
theorem coordGo_spec (fuel : Nat) (stream : Nat → CoordAttempt) :
    ∀ (i : Nat) (r : Except String ElementCoordinates) (n : Nat),
      coordGo stream i fuel = (r, n) →
      (∀ c, r = Except.ok c →
        (0 ≤ c.x ∧ c.x ≤ MAX_COORDINATE_VALUE ∧ 0 ≤ c.y ∧ c.y ≤ MAX_COORDINATE_VALUE) ∧ n ≤ i + fuel) ∧
      (∀ e, r = Except.error e → n = i + fuel) := by
  induction fuel with
  | zero =>
    intro i r n h
    simp only [coordGo] at h
    injection h with h1 h2
    subst h1; subst h2
    exact ⟨fun c hc => Except.noConfusion hc, fun e _ => by omega⟩
  | succ fuel ih =>
    intro i r n h
    simp only [coordGo] at h
    repeat' split at h
    all_goals first
    | (injection h with h1 h2; subst h1; subst h2;
       exact ⟨fun c hc => Except.noConfusion hc, fun e _ => by omega⟩)
    | (injection h with h1 h2; subst h1; subst h2;
       rename_i hbad
       push_neg at hbad
       refine ⟨fun c hc => ?_, fun e he => Except.noConfusion he⟩
       injection hc with hc; subst hc
       exact ⟨⟨hbad.1, hbad.2.2.1, hbad.2.1, hbad.2.2.2⟩, by omega⟩)
    | (obtain ⟨hok, herr⟩ := ih (i + 1) r n h;
       exact ⟨fun c hc => ⟨(hok c hc).1, by have := (hok c hc).2; omega⟩,
              fun e he => by have := herr e he; omega⟩)

/-- C2: for every stream of attempt observations, getCenterCoordinates
either returns coordinates whose components lie in
[0, MAX_COORDINATE_VALUE] (NaN can never be returned, since a NaN
component is rejected by the validation), or raises after consuming
exactly MAX_RETRIES = 3 attempts, never more. -/
theorem getCenterCoordinates_range_or_three_attempts (stream : Nat → CoordAttempt) :
    match getCenterCoordinates stream with
    | (Except.ok c, n) =>
      (0 ≤ c.x ∧ c.x ≤ MAX_COORDINATE_VALUE ∧ 0 ≤ c.y ∧ c.y ≤ MAX_COORDINATE_VALUE) ∧ n ≤ 3
    | (Except.error _, n) => n = 3 := by
  rcases hres : getCenterCoordinates stream with ⟨r, n⟩
  obtain ⟨hok, herr⟩ := coordGo_spec MAX_RETRIES stream 0 r n hres
  cases r with
  | ok c =>
    refine ⟨(hok c rfl).1, ?_⟩
    have hn := (hok c rfl).2
    simp only [MAX_RETRIES] at hn
    omega
  | error e =>
    have hn := herr e rfl
    simp only [MAX_RETRIES] at hn
    omega

end Coordinates

namespace Waiting

/-- C7 counterexample: the waiting executor does not clamp a negative
numeric input to 0; it raises an invalid-duration error instead of
resolving after a clamped wall-clock duration. -/
theorem waiting_negative_raises :
    waiting (-1) = Except.error "Invalid wait duration: -1. Must be a non-negative number." := by
  rfl

/-- C7 amended: for every non-negative numeric input the wait duration is
min(seconds, 300), which lies in [0, 300]; values above 300 are capped at
300. Negative inputs raise instead of being clamped. -/
theorem waiting_clamps_nonneg (s : ℚ) (h : 0 ≤ s) :
    waiting s = Except.ok (min s 300) ∧ 0 ≤ min s 300 ∧ min s 300 ≤ 300 := by
  refine ⟨?_, le_min h (by norm_num), min_le_right _ _⟩
  simp [waiting, maxWaitSeconds, not_lt.mpr h]

/-- C7 witness: waiting with seconds = 1000 resolves after 300 seconds,
not 1000. -/
theorem waiting_clamps_nonneg_witness : waiting 1000 = Except.ok 300 := by
  have h := waiting_clamps_nonneg 1000 (by norm_num)
  rw [h.1]
  norm_num

end Waiting

namespace ActionState

/-- Helper: along well-formed call sequences the activeAction field of
the manager coincides with the open window of the claim, and the open
action always has a stored state. -/
theorem foldl_applyEvent_spec :
    ∀ (es : List ActionEvent) (m : Manager) (o : Option String),
      m.activeAction = o →
      (∀ id, o = some id → (m.states id).isSome = true) →
      wellFormed o es = true →
      (es.foldl applyEvent m).activeAction = specOpen o es ∧
      (∀ id, specOpen o es = some id → ((es.foldl applyEvent m).states id).isSome = true) := by
  intro es
  induction es with
  | nil =>
    intro m o hm hinv _
    exact ⟨by simpa [specOpen] using hm, by simpa [specOpen] using hinv⟩
  | cons e es ih =>
    intro m o hm hinv hwf
    cases e with
    | start id =>
      cases o with
      | some j => simp [wellFormed] at hwf
      | none =>
        simp only [wellFormed] at hwf
        simp only [List.foldl_cons, specOpen, applyEvent]
        refine ih (startAction m id) (some id) rfl ?_ hwf
        intro j hj
        injection hj with hj
        subst hj
        simp [startAction, setState]
    | setInProgress id =>
      simp only [wellFormed] at hwf
      split at hwf
      case isTrue ho =>
        subst ho
        have hs := hinv id rfl
        simp only [List.foldl_cons, specOpen, applyEvent, setActionInProgress]
        cases hms : m.states id with
        | none => rw [hms] at hs; simp at hs
        | some st =>
          refine ih _ (some id) ?_ ?_ hwf
          · simpa [setState] using hm
          · intro j hj
            injection hj with hj
            subst hj
            simp [setState]
      case isFalse => simp at hwf
    | complete id =>
      simp only [wellFormed] at hwf
      split at hwf
      case isTrue ho =>
        subst ho
        have hs := hinv id rfl
        simp only [List.foldl_cons, specOpen, applyEvent, completeAction]
        cases hms : m.states id with
        | none => rw [hms] at hs; simp at hs
        | some st =>
          exact ih _ none (by simp [hm]) (fun j hj => Option.noConfusion hj) hwf
      case isFalse => simp at hwf
    | fail id =>
      simp only [wellFormed] at hwf
      split at hwf
      case isTrue ho =>
        subst ho
        have hs := hinv id rfl
        simp only [List.foldl_cons, specOpen, applyEvent, failAction]
        cases hms : m.states id with
        | none => rw [hms] at hs; simp at hs
        | some st =>
          exact ih _ none (by simp [hm]) (fun j hj => Option.noConfusion hj) hwf
      case isFalse => simp at hwf

/-- C3 counterexample: the claim fails for overlapping sequences. After
start a, start b, complete b the action a has been started and neither
completed nor failed (its status is still pending, so the point lies
strictly inside the window of a), yet hasActiveAction is already false:
the manager tracks only the most recently started action. -/
theorem hasActiveAction_overlap_counterexample :
    (runEvents [ActionEvent.start "a", ActionEvent.start "b", ActionEvent.complete "b"]).states "a"
        = some ActionStatus.pending ∧
    hasActiveAction
        (runEvents [ActionEvent.start "a", ActionEvent.start "b", ActionEvent.complete "b"]) = false := by
  exact ⟨rfl, rfl⟩

/-- C3 amended: for non-overlapping (single-flight) call sequences,
hasActiveAction is true exactly strictly between a startAction and the
matching completeAction or failAction, and the first poll of
waitForAllActions resolves immediately exactly when no window is open.
Overlapping starts abandon the earlier window, as the counterexample
shows. -/
theorem hasActiveAction_window (es : List ActionEvent) (h : wellFormed none es = true) :
    hasActiveAction (runEvents es) = (specOpen none es).isSome ∧
    waitForAllActionsImmediate (runEvents es) = !((specOpen none es).isSome) := by
  obtain ⟨h1, _⟩ :=
    foldl_applyEvent_spec es emptyManager none rfl (fun id hid => Option.noConfusion hid) h
  constructor
  · simp [hasActiveAction, runEvents, h1]
  · simp [waitForAllActionsImmediate, hasActiveAction, runEvents, h1]

/-- C3 witness: a concrete single-flight sequence; inside the window the
flag is up, after completion waitForAllActions resolves immediately. -/
theorem hasActiveAction_window_witness :
    hasActiveAction (runEvents [ActionEvent.start "a", ActionEvent.complete "a"]) =
      (specOpen none [ActionEvent.start "a", ActionEvent.complete "a"]).isSome ∧
    waitForAllActionsImmediate (runEvents [ActionEvent.start "a", ActionEvent.complete "a"]) =
      !((specOpen none [ActionEvent.start "a", ActionEvent.complete "a"]).isSome) :=
  hasActiveAction_window [ActionEvent.start "a", ActionEvent.complete "a"] (by decide)

end ActionState

namespace Gateway

open ActionState

/-- C10: callDOMAction never throws: for every prior manager state and
every executor outcome it returns a structured ActionResult carrying the
action id and measured duration; on executor success the tracked action
is marked completed and the result is a success, on executor error the
tracked action is marked failed and the result is a failure carrying the
constructed error string, so the tracked action always ends in a
terminal state. -/
theorem callDOMAction_structured_terminal (m : Manager) (actionId ty : String) (env : GatewayEnv) :
    ((callDOMAction m actionId ty env).1.actionId = actionId) ∧
    ((callDOMAction m actionId ty env).1.duration = env.duration) ∧
    (match env.exec with
     | Except.ok _ =>
       (callDOMAction m actionId ty env).1.success = true ∧
       (callDOMAction m actionId ty env).1.error = none ∧
       ((callDOMAction m actionId ty env).2.states actionId = some ActionStatus.completed)
     | Except.error e =>
       (callDOMAction m actionId ty env).1.success = false ∧
       (callDOMAction m actionId ty env).1.error =
         some (mkErrorMessage ty env.duration env.tabId env.domainPart env.payloadPart env.browserPart e) ∧
       ((callDOMAction m actionId ty env).2.states actionId = some ActionStatus.failed)) := by
  cases henv : env.exec with
  | ok u =>
    simp [callDOMAction, henv, startAction, setActionInProgress, setState, completeAction]
  | error e =>
    simp [callDOMAction, henv, startAction, setActionInProgress, setState, failAction]

end Gateway

namespace SetValue

/-- C5: for a value of length L with no newline characters, the setValue
completion on the non-failing primary path resolves no earlier than
L * 50ms after the typing script starts and strictly earlier than
L * 50ms + 500ms; the delay is computed as L * 50 + 100 milliseconds. -/
theorem setValue_timing (value : String) (_h : ('\n' : Char) ∉ value.data) :
    typingDurationMs value ≤ setValueResolveDelayMs value ∧
    setValueResolveDelayMs value < typingDurationMs value + 500 ∧
    setValueResolveDelayMs value = value.length * 50 + 100 := by
  refine ⟨?_, ?_, rfl⟩
  · simp [setValueResolveDelayMs, totalDurationMs]
  · simp [setValueResolveDelayMs, totalDurationMs, typingDurationMs]

/-- C5 witness: the bounds evaluated on a concrete two-character value. -/
theorem setValue_timing_witness :
    typingDurationMs "hi" ≤ setValueResolveDelayMs "hi" ∧
    setValueResolveDelayMs "hi" < typingDurationMs "hi" + 500 ∧
    setValueResolveDelayMs "hi" = "hi".length * 50 + 100 :=
  setValue_timing "hi" (by decide)

/-- C6 counterexample: a newline typed into a textarea whose caret sits
at position 0 is appended at the end of the value, not inserted at the
caret: the source computes the position with selectionStart ||
value.length and the number 0 is falsy in JavaScript. -/
theorem handleEnterChar_caret_zero_counterexample :
    (handleEnterChar caretZeroTextarea false).value = "ab\n" ∧
    insertNewlineAt "ab" 0 = "\nab" ∧
    (handleEnterChar caretZeroTextarea false).value ≠ insertNewlineAt "ab" 0 := by
  refine ⟨rfl, rfl, ?_⟩
  decide

/-- C6 amended: a newline in a textarea never attempts form submission
and is inserted at the caret whenever the caret position is non-zero
(a zero caret is treated as absent and the newline is appended at the
end); a newline in a plain input whose keydown was not prevented and
which sits inside a form always attempts submission (submit event
dispatch, form.submit call, or submit-button click). -/
theorem handleEnterChar_textarea_vs_input (t : TextTarget) (prevented : Bool) :
    (t.kind = ElemKind.textarea →
      submitAttempted (handleEnterChar t prevented) = false ∧
      (∀ p, t.selectionStart = some p → 0 < p →
        (handleEnterChar t prevented).value = insertNewlineAt t.value p)) ∧
    (t.kind = ElemKind.input → prevented = false → t.hasForm = true →
      submitAttempted (handleEnterChar t prevented) = true) := by
  obtain ⟨k, v, ss, hform, scan, sthr, sbtn⟩ := t
  constructor
  · rintro rfl
    constructor
    · simp [handleEnterChar, submitAttempted]
    · intro p hp hpos
      subst hp
      have hne : p ≠ 0 := by omega
      simp [handleEnterChar, jsOrLen, hne]
  · rintro rfl rfl hform'
    subst hform'
    cases scan <;> cases sthr <;> cases sbtn <;>
      simp [handleEnterChar, submitAttempted, formSubmitAttempt]

/-- C6 witness: on a concrete textarea with caret 1 the newline is
spliced in without any submission, and on a concrete input inside a form
a submission is attempted. -/
theorem handleEnterChar_textarea_vs_input_witness :
    (submitAttempted (handleEnterChar witnessTextarea false) = false ∧
     (handleEnterChar witnessTextarea false).value = insertNewlineAt "ab" 1) ∧
    submitAttempted (handleEnterChar witnessInput false) = true := by
  refine ⟨⟨?_, ?_⟩, ?_⟩
  · exact ((handleEnterChar_textarea_vs_input witnessTextarea false).1 rfl).1
  · exact ((handleEnterChar_textarea_vs_input witnessTextarea false).1 rfl).2 1 rfl (by decide)
  · exact (handleEnterChar_textarea_vs_input witnessInput false).2 rfl rfl rfl

end SetValue

namespace Annotate

/-- C9: resolving the same element twice without an intervening DOM
re-annotation returns the same uniqueId both times: the first call
lazily assigns the identity attribute when it is absent and the second
call reads it back. The hypotheses state that the stored attribute is
either absent or a non-empty previously assigned token, and that the
freshly generated token is non-empty (the source generator produces a
base-36 fraction string, which is empty only when Math.random returns
exactly 0). -/
theorem getUniqueElementSelectorId_idempotent (attr : Option String) (f1 f2 : String)
    (hattr : attr = none ∨ ∃ s, attr = some s ∧ s ≠ "") (hf : f1 ≠ "") :
    (getUniqueElementSelectorId attr f1).1 =
      (getUniqueElementSelectorId (getUniqueElementSelectorId attr f1).2 f2).1 ∧
    (attr = none → (getUniqueElementSelectorId attr f1).2 = some f1) := by
  rcases hattr with rfl | ⟨s, rfl, hs⟩
  · simp [getUniqueElementSelectorId, hf]
  · simp [getUniqueElementSelectorId, hs]

/-- C9 witness: a concrete element with no attribute and a concrete
8-character token resolves to the same id on both calls, and the first
call stores the token. -/
theorem getUniqueElementSelectorId_idempotent_witness :
    (getUniqueElementSelectorId none "k3j9x2ab").1 =
      (getUniqueElementSelectorId (getUniqueElementSelectorId none "k3j9x2ab").2 "zzzw0001").1 ∧
    ((none : Option String) = none → (getUniqueElementSelectorId none "k3j9x2ab").2 = some "k3j9x2ab") :=
  getUniqueElementSelectorId_idempotent none "k3j9x2ab" "zzzw0001" (Or.inl rfl) (by decide)

end Annotate

namespace Stability

/-- Helper: a non-error poll past the timeout always resolves the wait. -/
theorem stabPoll_past_timeout (t : Nat) (s : StabState) (b : Bool) (ht : TIMEOUT < t) :
    ∃ r, stabPoll t s (Poll.result b) = StepRes.resolved r := by
  cases b with
  | false =>
    exact ⟨StabReason.timedOut, by simp [stabPoll, ht]⟩
  | true =>
    by_cases hach : CONSISTENT_CHECKS_REQUIRED ≤ (if s.lastWasStable = some true then s.consistent + 1 else 1) ∧
        MIN_STABLE_TIME ≤ t - (if s.lastWasStable = some true then s.lastStableTime else t)
    · exact ⟨StabReason.achieved, by simp [stabPoll, hach]⟩
    · exact ⟨StabReason.timedOut, by simp [stabPoll, hach, ht]⟩

/-- Helper: with no poll errors, the loop resolves no later than the
poll whose time exceeds the timeout. -/
theorem stabRun_no_error_resolves (stream : Nat → Poll) (h : ∀ n, stream n ≠ Poll.error) :
    ∀ (fuel n : Nat) (s : StabState), 1 ≤ fuel → TIMEOUT < POLL_INTERVAL * (n + fuel - 1) →
      stabRun stream n s fuel ≠ none := by
  intro fuel
  induction fuel with
  | zero =>
    intro n s h1 _
    exact absurd h1 (by omega)
  | succ fuel ih =>
    intro n s _ htime
    have hnf : n + (fuel + 1) - 1 = n + fuel := by omega
    rw [hnf] at htime
    simp only [stabRun]
    cases hp : stream n with
    | error => exact absurd hp (h n)
    | result b =>
      cases hstep : stabPoll (POLL_INTERVAL * n) s (Poll.result b) with
      | resolved r => simp
      | next s' =>
        rcases Nat.eq_zero_or_pos fuel with h0 | hpos
        · subst h0
          obtain ⟨r, hr⟩ := stabPoll_past_timeout (POLL_INTERVAL * n) s b (by simpa using htime)
          rw [hstep] at hr
          exact absurd hr (by simp)
        · refine ih (n + 1) s' hpos ?_
          have : n + 1 + fuel - 1 = n + fuel := by omega
          rw [this]
          exact htime

/-- C8 counterexample: with a poll stream in which every stability
script execution errors, the wait has still not resolved after 200
polls, at model time 5000ms, far past the 2-second timeout: the catch
path reschedules without ever testing the timeout, so the claim that
the wait always resolves when the timeout elapses fails. -/
theorem stability_error_polls_stuck :
    checkPageLoadingAndStability (fun _ => Poll.error) 200 = none := by
  rfl

/-- C8 amended: the wait never rejects (the source promise has no
reject path); whenever every poll returns a result, it resolves,
without raising, either because stability was achieved or because the
2-second timeout elapsed, no later than the first poll past the
timeout (poll 81 at 25ms intervals, hence within 82 polls); but when
the polls keep erroring the loop reschedules forever and never
resolves. -/
theorem stability_resolves_without_poll_errors (stream : Nat → Poll)
    (h : ∀ n, stream n ≠ Poll.error) :
    checkPageLoadingAndStability stream 82 ≠ none := by
  refine stabRun_no_error_resolves stream h 82 0 initState (by omega) ?_
  simp [TIMEOUT, POLL_INTERVAL]

/-- C8 witness: a concrete stream of always-unstable poll results
resolves within 82 polls. -/
theorem stability_resolves_without_poll_errors_witness :
    checkPageLoadingAndStability (fun _ => Poll.result false) 82 ≠ none :=
  stability_resolves_without_poll_errors (fun _ => Poll.result false) (fun _ hp => Poll.noConfusion hp)

end Stability

namespace Scroll

/-- Helper: the per-attempt scroll script never reports success for an
element whose rect has no positive extent: the dimension check precedes
every visibility test. -/
theorem scrollScript_zero_dims (p : ScrollPage)
    (hz : p.initRect.width ≤ 0 ∨ p.initRect.height ≤ 0) :
    (scrollScript p).success = false := by
  by_cases hf : p.found <;> simp [scrollScript, hf, hz]

/-- Helper: when every attempt throws and the last resort reports the
rect inside the expanded viewport, scrollIntoView returns a full
success. -/
theorem scrollGo_all_throws (env : ScrollEnv) (h : ∀ i, env.attempt i = none)
    (hlr : lastResortSucceeds env = true) : scrollIntoView env = ⟨true, true⟩ := by
  show scrollGo env 0 none false 3 = ⟨true, true⟩
  rw [show (3 : Nat) = 2 + 1 from rfl, scrollGo, h 0]
  norm_num
  rw [show (2 : Nat) = 1 + 1 from rfl, scrollGo, h 1]
  norm_num
  rw [show (1 : Nat) = 0 + 1 from rfl, scrollGo, h 2]
  simp [hlr]

/-- C4 counterexample: when all three attempts throw, the last-resort
path runs; it checks only the position of the rect against the expanded
viewport, not its dimensions, so a zero-width zero-height element at
the origin yields a full success, contradicting the claim that
scrollIntoView never returns success true for a zero-size element,
including on the last-resort path. -/
theorem scrollIntoView_zero_size_last_resort_counterexample :
    scrollIntoView cexScrollEnv = ⟨true, true⟩ ∧
    cexScrollEnv.lastResortRect.width = 0 ∧ cexScrollEnv.lastResortRect.height = 0 := by
  refine ⟨?_, rfl, rfl⟩
  refine scrollGo_all_throws cexScrollEnv (fun _ => rfl) ?_
  norm_num [lastResortSucceeds, cexScrollEnv, zeroRect, Rect.b, Rect.r]

/-- C4 amended: every non-throwing scroll attempt reports failure when
the element has zero width or height at the time of the attempt, so a
scrollIntoView call in which each of the three attempts observes the
zero-size element returns success false; only the last-resort path,
reached when the final attempt throws, skips the dimension check and
can report success for a zero-size element. -/
theorem scrollIntoView_zero_size_no_success (env : ScrollEnv)
    (h : ∀ i, i < MAX_RETRIES →
      ∃ p, env.attempt i = some p ∧ (p.initRect.width ≤ 0 ∨ p.initRect.height ≤ 0)) :
    (scrollIntoView env).success = false := by
  obtain ⟨p0, h0, hz0⟩ := h 0 (by norm_num [MAX_RETRIES])
  obtain ⟨p1, h1, hz1⟩ := h 1 (by norm_num [MAX_RETRIES])
  obtain ⟨p2, h2, hz2⟩ := h 2 (by norm_num [MAX_RETRIES])
  show (scrollGo env 0 none false 3).success = false
  rw [show (3 : Nat) = 2 + 1 from rfl, scrollGo, h0]
  simp only [scrollScript_zero_dims p0 hz0, if_false, Bool.false_eq_true]
  rw [show (2 : Nat) = 1 + 1 from rfl, scrollGo, h1]
  simp only [scrollScript_zero_dims p1 hz1, if_false, Bool.false_eq_true]
  rw [show (1 : Nat) = 0 + 1 from rfl, scrollGo, h2]
  simp only [scrollScript_zero_dims p2 hz2, if_false, Bool.false_eq_true]
  rw [scrollGo]
  rfl

/-- C4 witness: in the environment where each attempt sees the found
but zero-size element, scrollIntoView reports failure. -/
theorem scrollIntoView_zero_size_no_success_witness :
    (scrollIntoView zeroDimsEnv).success = false :=
  scrollIntoView_zero_size_no_success zeroDimsEnv
    (fun _ _ => ⟨zeroDimsPage, rfl, Or.inl (by norm_num [zeroDimsPage])⟩)

end Scroll

namespace Click

/-- C1 counterexample: scroll reported partial success and the
visibility check sees an unrelated element at the computed point, yet
click does not proceed to the backup method: it continues with the
primary method, whose dispatch finds that (different) element at the
point and succeeds, so the call returns successfully with the backup
path never attempted. -/
theorem click_mismatch_counterexample :
    visCheckVisible cexClickEnv = false ∧
    click cexClickEnv = ⟨true, true, false, true, false⟩ := by
  exact ⟨rfl, rfl⟩

/-- Helper: in the concrete mismatch environment the stability loop
returns the coordinates of the first fetch. -/
theorem coordLoop_cex : coordLoop cexClickEnv true 0 none 3 = some ⟨10, 10⟩ := by
  rfl

/-- C1 amended: when the element-at-point check fails but scroll
reported partial success, execution does not fail immediately: the
computed coordinates are kept and the primary click method is
attempted at them (dispatching the mouse events to whatever element is
at the point); the backup method is reached only if that primary
dispatch finds no element at the point (and the call as a whole either
succeeds or has attempted the backup method). -/
theorem click_mismatch_partial_proceeds (env : ClickEnv) (sr : Scroll.ScrollOutcome)
    (hs : env.scrollOutcome = Except.ok sr) (hp : sr.partialSuccess = true)
    (hv : visCheckVisible env = false)
    (c : Coordinates.ElementCoordinates) (hc : coordLoop env sr.partialSuccess 0 none 3 = some c) :
    (click env).primaryAttempted = true ∧
    ((click env).ok = true ∨ (click env).backupAttempted = true) := by
  have hc' := hc
  rw [hp] at hc'
  have hphase : clickPhase1 env = (some c, false) := by
    simp [clickPhase1, hs, hc', hv, hp]
  cases hat : env.primaryAtPoint with
  | some e =>
    simp [click, hphase, hat]
  | none =>
    simp only [click, hphase, hat]
    cases hlk : env.backupLookupOk <;> cases hsc : env.backupScriptOk <;>
      simp [clickBackup, hlk, hsc]

/-- C1 witness: the concrete mismatch environment, where the primary
dispatch finds the other element at the point and the click succeeds
with the backup never used. -/
theorem click_mismatch_partial_proceeds_witness :
    (click cexClickEnv).primaryAttempted = true ∧
    ((click cexClickEnv).ok = true ∨ (click cexClickEnv).backupAttempted = true) :=
  click_mismatch_partial_proceeds cexClickEnv ⟨false, true⟩ rfl rfl rfl ⟨10, 10⟩ coordLoop_cex

end Click
